import Mathlib

/-! Verification development for the asynchronous task pipeline of the
resume-optimizer backend: the optimization pipeline
(`services/orchestrator_service/app/core/optimizer.py`), the worker loop and
task queue (`services/orchestrator_service/app/worker.py`,
`app/db/models.py`, `app/db/repo.py`), and the embedding-based similarity
scorer (`services/orchestrator_service/app/core/matcher.py`).

The Python code is shallowly embedded: pure functions become Lean functions,
the generative-text backend becomes an explicit oracle consulted per attempt,
the database becomes an explicit record of rows, and Python floats become
exact rationals/reals.
-/

namespace ResumeOpt

/-! Section: Python string primitives

Python-level character predicates, restricted to the character repertoire
this development exercises (ASCII plus the Arabic letter blocks); a full
Unicode category table is out of scope of the embedding. -/

/-- Python's whitespace test for `str.strip` (space, tab, LF, CR, VT, FF). -/
def pyIsSpace (c : Char) : Bool :=
  c = (' ') || c = ('\t') || c = ('\n') || c = ('\r') || c.toNat = 11 || c.toNat = 12

/-- Python's `str.strip()` with no argument: drop whitespace on both ends. -/
def pyStrip (s : String) : String :=
  String.mk (((s.toList.dropWhile pyIsSpace).reverse.dropWhile pyIsSpace).reverse)

/-- Python's `str.isalpha` per character, modelled on the ranges used here:
ASCII letters and the core Arabic letter ranges U+0621-U+064A and
U+0671-U+06D3. -/
def pyIsAlpha (c : Char) : Bool :=
  c.isAlpha || (0x0621 ≤ c.toNat && c.toNat ≤ 0x064A)
    || (0x0671 ≤ c.toNat && c.toNat ≤ 0x06D3)

/-- Python `a or b` on two optional strings: the left value when it is a
non-empty string, otherwise the right value. -/
def pyOr (a b : Option String) : Option String :=
  match a with
  | some s => if s = ("") then b else some s
  | none => b

/-- Python `a or d` where `d` is a plain (truthy) string default. -/
def pyOrS (a : Option String) (d : String) : String :=
  match a with
  | some s => if s = ("") then d else s
  | none => d

/-! Section: Optimizer: language handling (`core/optimizer.py`) -/

/-- Models `MAX_RETRIES` from `core/optimizer.py`: max retry attempts for invalid
JSON. -/
def MAX_RETRIES : Nat := 3

/-- Models `language_name`: `LANGUAGE_LABELS.get(code or "", "English")`, where
`LANGUAGE_LABELS` maps `"en"` to `"English"` and `"ar"` to `"Arabic"`. -/
def language_name (code : Option String) : String :=
  let key := code.getD ("")
  if key = ("en") then ("English")
  else if key = ("ar") then ("Arabic")
  else ("English")

/-- The f-string body of `build_language_instructions`, as a function of the
three language labels. -/
def instrText (resume_label jd_label target_label : String) : String :=
  ("Language context:\n- Resume language: ") ++ resume_label ++
  ("\n- Job description language: ") ++ jd_label ++
  ("\n- Desired output language: ") ++ target_label ++
  ("\n\nRules:\n- preview_markdown MUST be written in ") ++ target_label ++
  (".\n- If the resume or job description is in a different language, translate the content into ") ++
  target_label ++
  (".\n- Keep proper nouns (company names, product names, certifications) in their original language.\n- If preserving ATS keywords helps, you may keep the original keyword in parentheses.")

/-- Models `build_language_instructions`: resolves the target language as
`desired_output_lang or resume_lang or "en"` and builds the instruction
block naming the three languages. -/
def build_language_instructions
    (resume_lang jd_lang desired_output_lang : Option String) : String :=
  let target_lang := pyOrS (pyOr desired_output_lang resume_lang) ("en")
  let resume_label := language_name resume_lang
  let jd_label := language_name jd_lang
  let target_label := language_name (some target_lang)
  instrText resume_label jd_label target_label

/-- Membership in the character class of `ARABIC_LETTER_RE`
(`[؀-ۿݐ-ݿࢠ-ࣿﭐ-﷿ﹰ-﻿]`). -/
def isArabicChar (c : Char) : Bool :=
  (0x0600 ≤ c.toNat && c.toNat ≤ 0x06FF)
    || (0x0750 ≤ c.toNat && c.toNat ≤ 0x077F)
    || (0x08A0 ≤ c.toNat && c.toNat ≤ 0x08FF)
    || (0xFB50 ≤ c.toNat && c.toNat ≤ 0xFDFF)
    || (0xFE70 ≤ c.toNat && c.toNat ≤ 0xFEFF)

/-- Models `arabic_ratio` from `core/optimizer.py`: the number of characters matched
by `ARABIC_LETTER_RE` divided by the number of alphabetic characters;
`0` when there is no alphabetic character.  Exact rational in place of the
Python float. -/
def arabic_fraction (text : String) : ℚ :=
  let letters := text.toList.filter pyIsAlpha
  if letters.isEmpty then 0
  else
    let arabic_letters := text.toList.filter isArabicChar
    (arabic_letters.length : ℚ) / (letters.length : ℚ)

/-- Models `needs_translation`: false on blank text; for target `"ar"` true when the
Arabic fraction is below 0.15; for target `"en"` true when it exceeds 0.15;
false for every other target. -/
def needs_translation (text : String) (target_lang : String) : Bool :=
  if pyStrip text = ("") then false
  else if target_lang = ("ar") then decide (arabic_fraction text < 15 / 100)
  else if target_lang = ("en") then decide (15 / 100 < arabic_fraction text)
  else false

/-! Section: Optimizer: response schemas (`core/optimizer.py`) -/

/-- Models `ExperienceItem`. -/
structure ExperienceItem where
  role : String
  company : String
  duration : String
  highlights : List String
deriving DecidableEq

/-- Models `ContactInfo`. -/
structure ContactInfo where
  email : Option String
  phone : Option String
  linkedin : Option String
deriving DecidableEq

/-- Models `EvidenceItem`. -/
structure EvidenceItem where
  source : String
  snippet : String
  note : String
deriving DecidableEq

/-- Models `ExtractedEntities`. -/
structure ExtractedEntities where
  skills : List String
  tools : List String
  education : List String
  experience : List ExperienceItem
  contact : Option ContactInfo
deriving DecidableEq

/-- Models `AlignmentInsights`. -/
structure AlignmentInsights where
  matched : List String
  missing : List String
  weak : List String
  evidence : List EvidenceItem
deriving DecidableEq

/-- Models `OptimizationResultCore`: the schema of the stage-3 rewrite call. -/
structure OptimizationResultCore where
  score : Int
  missing_keywords : List String
  covered_keywords : List String
  change_log : List String
  preview_markdown : String
deriving DecidableEq

/-- Models `OptimizationResult`: the full pipeline output. -/
structure OptimizationResult where
  score : Int
  missing_keywords : List String
  covered_keywords : List String
  change_log : List String
  preview_markdown : String
  detected_resume_lang : Option String
  detected_jd_lang : Option String
  extracted_entities : Option ExtractedEntities
  alignment_insights : Option AlignmentInsights
deriving DecidableEq

/-- Models `ReliabilityMetrics`; `latency_seconds` is wall-clock time in the source
and is not modelled (kept at its reset value). -/
structure ReliabilityMetrics where
  invalid_json_attempts : Nat := 0
  total_attempts : Nat := 0
  latency_seconds : ℚ := 0
  last_run_valid : Bool := true
deriving DecidableEq

/-- The fallback all-empty entity set returned when extraction exhausts its
retries. -/
def emptyEntities : ExtractedEntities :=
  { skills := [], tools := [], education := [], experience := [], contact := none }

/-! Section: Optimizer: the generation backend oracle

`llm.generate_response` is awaited once per attempt.  Each call either
returns an instance of the requested schema, returns some other value
without raising (the `isinstance` test then fails silently), or raises
(schema-validation failure or any other backend exception). -/

/-- Outcome of one `generate_response` call against a schema `α`. -/
inductive GenResult (α : Type) where
  | ok (val : α)
  | wrongType
  | raised
deriving DecidableEq

/-- The generation backend, as per-stage oracles indexed by the attempt
number within the stage; the translation stage issues at most one call. -/
structure Backend where
  extractResp : Nat → GenResult ExtractedEntities
  alignResp : Nat → GenResult AlignmentInsights
  rewriteResp : Nat → GenResult OptimizationResultCore
  translateResp : GenResult String

/-- Models `ResumeOptimizer.translate_markdown`: one unconstrained generation call;
a string result is stripped, a non-string result falls back to the input
text, an exception propagates to the caller. -/
def translate_markdown (b : Backend) (text : String) (_target_lang : String) :
    Except Unit String :=
  match b.translateResp with
  | GenResult.ok translated => Except.ok (pyStrip translated)
  | GenResult.wrongType => Except.ok text
  | GenResult.raised => Except.error ()

/-- The retry loop of `ResumeOptimizer.extract_entities`: `attempt` is the
next attempt index, `remaining` the number of attempts left out of
`MAX_RETRIES`.  A raised exception increments `invalid_json_attempts`; a
non-instance return silently moves to the next attempt; exhaustion falls
back to the all-empty entity set. -/
def extractLoop (b : Backend) : Nat → Nat → ReliabilityMetrics →
    ExtractedEntities × ReliabilityMetrics
  | _, 0, m => (emptyEntities, m)
  | attempt, remaining + 1, m =>
    match b.extractResp attempt with
    | GenResult.ok r => (r, m)
    | GenResult.wrongType => extractLoop b (attempt + 1) remaining m
    | GenResult.raised =>
        extractLoop b (attempt + 1) remaining
          { m with invalid_json_attempts := m.invalid_json_attempts + 1 }

/-- Models `ResumeOptimizer.extract_entities` (the prompt strings are not part of
the model; `resume_text` only feeds the prompt). -/
def extract_entities (b : Backend) (_resume_text : String)
    (m : ReliabilityMetrics) : ExtractedEntities × ReliabilityMetrics :=
  extractLoop b 0 MAX_RETRIES m

/-- The retry loop of `ResumeOptimizer.analyze_alignment`, same policy as
`extractLoop` with fallback to the all-empty insight set. -/
def alignLoop (b : Backend) : Nat → Nat → ReliabilityMetrics →
    AlignmentInsights × ReliabilityMetrics
  | _, 0, m => ({ matched := [], missing := [], weak := [], evidence := [] }, m)
  | attempt, remaining + 1, m =>
    match b.alignResp attempt with
    | GenResult.ok r => (r, m)
    | GenResult.wrongType => alignLoop b (attempt + 1) remaining m
    | GenResult.raised =>
        alignLoop b (attempt + 1) remaining
          { m with invalid_json_attempts := m.invalid_json_attempts + 1 }

/-- Models `ResumeOptimizer.analyze_alignment`. -/
def analyze_alignment (b : Backend) (_resume_text _job_description : String)
    (_entities : ExtractedEntities) (m : ReliabilityMetrics) :
    AlignmentInsights × ReliabilityMetrics :=
  alignLoop b 0 MAX_RETRIES m

/-- The stage-3 retry loop inside `ResumeOptimizer.optimize`: every
iteration increments `total_attempts`; success breaks with the core result;
a raised exception additionally increments `invalid_json_attempts`;
exhaustion leaves the core result as `none`. -/
def rewriteLoop (b : Backend) : Nat → Nat → ReliabilityMetrics →
    Option OptimizationResultCore × ReliabilityMetrics
  | _, 0, m => (none, m)
  | attempt, remaining + 1, m =>
    let m1 := { m with total_attempts := m.total_attempts + 1 }
    match b.rewriteResp attempt with
    | GenResult.ok llm_result => (some llm_result, m1)
    | GenResult.wrongType => rewriteLoop b (attempt + 1) remaining m1
    | GenResult.raised =>
        rewriteLoop b (attempt + 1) remaining
          { m1 with invalid_json_attempts := m1.invalid_json_attempts + 1 }

/-- The `optimize` task payload (§6 of the spec; `payload.get` with both
snake-case and camel-case spellings for the language fields). -/
structure Payload where
  job_id : Option String := none
  user_id : Option String := none
  resume_id : Option String := none
  resume_version_id : Option String := none
  resume_text : String := ("")
  job_description : String := ("")
  instructions : String := ("")
  resume_lang : Option String := none
  resumeLang : Option String := none
  jd_lang : Option String := none
  jdLang : Option String := none
  desired_output_lang : Option String := none
  desiredOutputLang : Option String := none
  is_refinement : Bool := false
deriving DecidableEq

/-- Models `target_lang` as resolved inside `optimize`:
`(desired_output_lang or desiredOutputLang) or (resume_lang or resumeLang)
or "en"`. -/
def resolved_target_lang (p : Payload) : String :=
  pyOrS (pyOr (pyOr p.desired_output_lang p.desiredOutputLang)
    (pyOr p.resume_lang p.resumeLang)) ("en")

/-- One full run of `ResumeOptimizer.optimize`: the returned result and
metrics, plus (as observable instrumentation) the stage-3 core result used
and the number of translation calls issued. -/
structure OptimizeRun where
  result : OptimizationResult
  metrics : ReliabilityMetrics
  core_result : Option OptimizationResultCore
  translation_calls : Nat
deriving DecidableEq

/-- Models `ResumeOptimizer.optimize`: metrics reset, entity extraction, alignment
analysis, bounded-retry rewrite, optional translation; never raises. -/
def optimize (b : Backend) (p : Payload) : OptimizeRun :=
  let resume_text := p.resume_text
  let job_description := p.job_description
  let resume_lang := pyOr p.resume_lang p.resumeLang
  let desired_output_lang := pyOr p.desired_output_lang p.desiredOutputLang
  let em := extract_entities b resume_text { }
  let am := analyze_alignment b resume_text job_description em.1 em.2
  let rm := rewriteLoop b 0 MAX_RETRIES am.2
  let metrics : ReliabilityMetrics :=
    { rm.2 with last_run_valid := (rm.1).isSome }
  match rm.1 with
  | some core_result =>
    let target_lang := pyOrS (pyOr desired_output_lang resume_lang) ("en")
    let tr : String × Nat :=
      if needs_translation core_result.preview_markdown target_lang then
        match translate_markdown b core_result.preview_markdown target_lang with
        | Except.ok t => (t, 1)
        | Except.error _ => (core_result.preview_markdown, 1)
      else (core_result.preview_markdown, 0)
    { result :=
        { score := core_result.score
          missing_keywords := core_result.missing_keywords
          covered_keywords := core_result.covered_keywords
          change_log := core_result.change_log
          preview_markdown := tr.1
          detected_resume_lang := none
          detected_jd_lang := none
          extracted_entities := some em.1
          alignment_insights := some am.1 }
      metrics := metrics
      core_result := some core_result
      translation_calls := tr.2 }
  | none =>
    { result :=
        { score := 0
          missing_keywords := []
          covered_keywords := []
          change_log := [("Error: Failed to parse LLM response after retries")]
          preview_markdown := resume_text
          detected_resume_lang := none
          detected_jd_lang := none
          extracted_entities := some em.1
          alignment_insights := some am.1 }
      metrics := metrics
      core_result := none
      translation_calls := 0 }

/-! Section: Task queue and worker loop (`db/models.py`, `worker.py`)

The database is modelled as an explicit record of task rows, job statuses
and optimization records; session commit/rollback becomes whether the
candidate writes of a cycle are applied or discarded. -/

/-- Models `TaskStatusEnum`. -/
inductive TaskStatus where
  | queued
  | processing
  | complete
  | failed
deriving DecidableEq

/-- Models `TaskTypeEnum`. -/
inductive TaskType where
  | optimize
  | embed_resume
  | embed_job
deriving DecidableEq

/-- Models `JobStatusEnum`. -/
inductive JobStatus where
  | queued
  | processing
  | complete
  | failed
deriving DecidableEq

/-- One `task_queue` row (`TaskQueue` in `db/models.py`); `created_at` is an
abstract timestamp, `id` an abstract primary key. -/
structure TaskRow where
  id : Nat
  task_type : TaskType
  payload : Payload
  status : TaskStatus
  attempts : Nat
  last_error : Option String
  created_at : Nat
deriving DecidableEq

/-- One `optimizations` row as written by `Repository.create_optimization`
(the JSON report blob is not modelled field by field). -/
structure OptRecord where
  user_id : String
  resume_id : Option String
  resume_version_id : Option String
  job_id : String
  score : Int
  preview_md : String
  change_log : List String
deriving DecidableEq

/-- The persisted state the worker touches: task rows, job statuses keyed by
job id, and optimization records. -/
structure DB where
  tasks : List TaskRow
  jobs : List (String × JobStatus)
  optimizations : List OptRecord
deriving DecidableEq

/-- The filter of the worker's poll query:
`status == queued ∧ task_type == optimize`. -/
def isClaimable (r : TaskRow) : Bool :=
  r.status = TaskStatus.queued && r.task_type = TaskType.optimize

/-- The poll query `ORDER BY created_at LIMIT 1` over claimable rows: the
index and row of the first claimable row with minimal `created_at`. -/
def pickOldest : List TaskRow → Option (Nat × TaskRow)
  | [] => none
  | r :: rest =>
    if isClaimable r then
      match pickOldest rest with
      | some (j, u) =>
          if u.created_at < r.created_at then some (j + 1, u) else some (0, r)
      | none => some (0, r)
    else
      (pickOldest rest).map (fun p => (p.1 + 1, p.2))

/-- The claim step of `run_worker` (worker.py lines 98-117): select the
oldest queued `optimize` row, set it to `processing`, increment `attempts`,
commit, and hand the row to `process_task`. -/
def claim_next (db : DB) : Option (Nat × TaskRow) × DB :=
  match pickOldest db.tasks with
  | none => (none, db)
  | some (i, task_row) =>
    let t1 := { task_row with
      status := TaskStatus.processing, attempts := task_row.attempts + 1 }
    (some (i, t1), { db with tasks := db.tasks.set i t1 })

/-- Models `Repository.update_job_status`: SQL `UPDATE jobs SET status ... WHERE
id = job_id` (affects every row with that key, normally exactly one). -/
def update_job_status (jobs : List (String × JobStatus)) (job_id : String)
    (status : JobStatus) : List (String × JobStatus) :=
  jobs.map (fun pr => if pr.1 = job_id then (pr.1, status) else pr)

/-- Python `payload.get(k) or None`: an empty string collapses to `None`. -/
def orNone (a : Option String) : Option String :=
  match a with
  | some s => if s = ("") then none else some s
  | none => a

/-- Models `process_task` from `worker.py`: run the pipeline, then persist the
optimization record and set the job status to `complete` and commit; on any
exception (here: `payload["job_id"]` / `payload["user_id"]` missing) roll
back the cycle's writes and mark only the task row `failed` with the error
text.  The task row is never touched on the success path. -/
def process_task (b : Backend) (db : DB) (task_id : Nat) (payload : Payload) :
    DB :=
  let run := optimize b payload
  match payload.job_id, payload.user_id with
  | some job_id, some user_id =>
    { db with
      optimizations := db.optimizations ++
        [{ user_id := user_id
           resume_id := orNone payload.resume_id
           resume_version_id := orNone payload.resume_version_id
           job_id := job_id
           score := run.result.score
           preview_md := run.result.preview_markdown
           change_log := run.result.change_log }]
      jobs := update_job_status db.jobs job_id JobStatus.complete }
  | _, _ =>
    { db with
      tasks := db.tasks.map (fun r =>
        if r.id = task_id then
          { r with status := TaskStatus.failed, last_error := some ("KeyError") }
        else r) }

/-- One poll cycle of `run_worker`: claim one task and process it; when the
queue is empty the cycle only sleeps. -/
def worker_cycle (b : Backend) (db : DB) : DB :=
  match claim_next db with
  | (some (_, t), db1) => process_task b db1 t.id t.payload
  | (none, db1) => db1

/-! Section: Similarity scorer (`core/matcher.py`)

Embedding vectors are lists of reals (Python floats become exact reals);
`np.linalg.norm` is the square root of the sum of squares.  The embedding
provider is an oracle from text to an optional vector (`none` models a
raised exception). -/

/-- Models the value of `np.dot` on two 1-D vectors of equal length (the
product sum).  `np.dot` itself additionally raises `ValueError` when the
lengths differ; that error path is modelled separately by `np_dot` below,
and this total version is the one the scorer exercises, since embeddings of
one provider share a fixed dimension. -/
def dotProduct (a b : List ℝ) : ℝ :=
  (List.zipWith (fun x y => x * y) a b).sum

/-- Sum of squares, so that `np.linalg.norm v = Real.sqrt (sumSq v)`. -/
def sumSq (a : List ℝ) : ℝ :=
  (a.map (fun x => x * x)).sum

/-- Models `cosine_similarity` from `core/matcher.py` on equal-length
inputs: dot product over the product of the norms, with an explicit guard
returning `0.0` when either norm is zero.  The source raises `ValueError`
from `np.dot` on length-mismatched 1-D inputs before reaching the guard;
the exact model including that error path is `cosine_similarity_exc` below,
which agrees with this version whenever the lengths match. -/
noncomputable def cosine_similarity (vec_a vec_b : List ℝ) : ℝ :=
  let dot_product := dotProduct vec_a vec_b
  let norm_a := Real.sqrt (sumSq vec_a)
  let norm_b := Real.sqrt (sumSq vec_b)
  if norm_a = 0 ∨ norm_b = 0 then 0
  else dot_product / (norm_a * norm_b)

/-- Models `ResumeMatcher.get_embedding`: empty list on blank text; the provider's
vector otherwise; empty list when the provider raises. -/
def get_embedding (emb : String → Option (List ℝ)) (text : String) :
    List ℝ :=
  if pyStrip text = ("") then []
  else
    match emb text with
    | some embedding => embedding
    | none => []

/-- Models `", ".join(resume_skills) if resume_skills else ""`. -/
def skillsTextOf (resume_skills : List String) : String :=
  if resume_skills.isEmpty then ("") else String.intercalate (", ") resume_skills

/-- Models `" | ".join(resume_experience) if resume_experience else ""`. -/
def experienceTextOf (resume_experience : List String) : String :=
  if resume_experience.isEmpty then ("")
  else String.intercalate (" | ") resume_experience

/-- Models `", ".join(resume_education) if resume_education else ""`. -/
def educationTextOf (resume_education : List String) : String :=
  if resume_education.isEmpty then ("")
  else String.intercalate (", ") resume_education

/-- The per-section block of `calculate_match_score`: `0` for an empty
section text, otherwise embed the section and take the cosine similarity
against the job embedding (`0` again when the embedding comes back empty). -/
noncomputable def sectionSim (emb : String → Option (List ℝ))
    (job_embedding : List ℝ) (text : String) : ℝ :=
  if text = ("") then 0
  else
    let e := get_embedding emb text
    if e.isEmpty then 0 else cosine_similarity job_embedding e

/-- Python `round(x, 1)` on exact reals: round `10 * x` to the nearest
integer and divide by 10 (float midpoint behaviour is not modelled). -/
noncomputable def pyRound1 (x : ℝ) : ℝ :=
  ((round (10 * x) : ℤ) : ℝ) / 10

/-- The dictionary returned by `calculate_match_score` (the constant
`breakdown` sub-dictionary of weights is not modelled). -/
structure MatchScore where
  overall_score : ℝ
  skills_score : ℝ
  experience_score : ℝ
  education_score : ℝ
  error : Option String

/-- Models `ResumeMatcher.calculate_match_score` with the fixed weights
skills 0.50, experience 0.30, education 0.20: a zeroed result with an error
marker when the job-description embedding is unavailable, otherwise the
weighted per-section cosine similarities scaled to 0-100 and rounded to one
decimal. -/
noncomputable def calculate_match_score (emb : String → Option (List ℝ))
    (resume_skills resume_experience resume_education : List String)
    (job_description : String) : MatchScore :=
  let skills_text := skillsTextOf resume_skills
  let experience_text := experienceTextOf resume_experience
  let education_text := educationTextOf resume_education
  let job_embedding := get_embedding emb job_description
  if job_embedding.isEmpty then
    { overall_score := 0, skills_score := 0, experience_score := 0
      education_score := 0, error := some ("Failed to compute embeddings") }
  else
    let scores_skills := sectionSim emb job_embedding skills_text
    let scores_experience := sectionSim emb job_embedding experience_text
    let scores_education := sectionSim emb job_embedding education_text
    let overall := scores_skills * (0.50) * 100 + scores_experience * (0.30) * 100
      + scores_education * (0.20) * 100
    { overall_score := pyRound1 overall
      skills_score := pyRound1 (scores_skills * 100)
      experience_score := pyRound1 (scores_experience * 100)
      education_score := pyRound1 (scores_education * 100)
      error := none }

/-- One candidate dictionary passed to `rank_candidates`. -/
structure Candidate where
  id : Option String := none
  name : Option String := none
  skills : List String := []
  experience : List String := []
  education : List String := []

/-- One entry of the list returned by `rank_candidates`. -/
structure RankedCandidate where
  id : Option String
  name : String
  overall_score : ℝ
  skills_score : ℝ
  experience_score : ℝ
  education_score : ℝ
  error : Option String

/-- The loop body of `rank_candidates`: score one candidate and merge the
score dictionary into the result entry. -/
noncomputable def scoreCandidate (emb : String → Option (List ℝ))
    (job_description : String) (c : Candidate) : RankedCandidate :=
  let score_data :=
    calculate_match_score emb c.skills c.experience c.education job_description
  { id := c.id
    name := c.name.getD ("Unknown")
    overall_score := score_data.overall_score
    skills_score := score_data.skills_score
    experience_score := score_data.experience_score
    education_score := score_data.education_score
    error := score_data.error }

/-- Models `ResumeMatcher.rank_candidates`: score every candidate in input order,
then `results.sort(key=..., reverse=True)` — a stable descending sort on
`overall_score`, modelled by stable merge sort. -/
noncomputable def rank_candidates (emb : String → Option (List ℝ))
    (candidates : List Candidate) (job_description : String) :
    List RankedCandidate :=
  let results := candidates.map (scoreCandidate emb job_description)
  results.mergeSort (fun x y => decide (y.overall_score ≤ x.overall_score))

/-- Models `np.dot` on two 1-D float arrays including its error path: the
product sum when the lengths agree, and a raised `ValueError`
(`Except.error`) when they differ. -/
def np_dot (a b : List ℝ) : Except Unit ℝ :=
  if a.length = b.length then
    Except.ok ((List.zipWith (fun x y => x * y) a b).sum)
  else Except.error ()

/-- Exact model of `cosine_similarity` from `core/matcher.py` (lines 19-31)
including the error path: `np.dot(a, b)` is evaluated before the zero-norm
guard, so a length mismatch between the two vectors raises and the guard is
never reached; on equal-length inputs the result is the total
`cosine_similarity` above. -/
noncomputable def cosine_similarity_exc (vec_a vec_b : List ℝ) :
    Except Unit ℝ :=
  match np_dot vec_a vec_b with
  | Except.error e => Except.error e
  | Except.ok dot_product =>
    let norm_a := Real.sqrt (sumSq vec_a)
    let norm_b := Real.sqrt (sumSq vec_b)
    if norm_a = 0 ∨ norm_b = 0 then Except.ok 0
    else Except.ok (dot_product / (norm_a * norm_b))

/-! Section: Helper lemmas on the retry loops -/

/-- A backend that raises on every extraction attempt drives `extractLoop`
through all remaining attempts, incrementing `invalid_json_attempts` once
per attempt and falling back to the empty entity set. -/
theorem extractLoop_raised (b : Backend)
    (h : ∀ n, b.extractResp n = GenResult.raised) (r : Nat) :
    ∀ (a : Nat) (m : ReliabilityMetrics),
      extractLoop b a r m =
        (emptyEntities,
          { m with invalid_json_attempts := m.invalid_json_attempts + r }) := by
  induction r with
  | zero => intro a m; simp [extractLoop]
  | succ r ih =>
    intro a m
    simp only [extractLoop, h, ih]
    congr 1
    simp
    omega

/-- Same as `extractLoop_raised` for the alignment loop. -/
theorem alignLoop_raised (b : Backend)
    (h : ∀ n, b.alignResp n = GenResult.raised) (r : Nat) :
    ∀ (a : Nat) (m : ReliabilityMetrics),
      alignLoop b a r m =
        ({ matched := [], missing := [], weak := [], evidence := [] },
          { m with invalid_json_attempts := m.invalid_json_attempts + r }) := by
  induction r with
  | zero => intro a m; simp [alignLoop]
  | succ r ih =>
    intro a m
    simp only [alignLoop, h, ih]
    congr 1
    simp
    omega

/-- A backend that raises on every rewrite attempt drives `rewriteLoop`
through all remaining attempts, incrementing both counters once per attempt
and producing no core result. -/
theorem rewriteLoop_raised (b : Backend)
    (h : ∀ n, b.rewriteResp n = GenResult.raised) (r : Nat) :
    ∀ (a : Nat) (m : ReliabilityMetrics),
      rewriteLoop b a r m =
        (none,
          { m with
            invalid_json_attempts := m.invalid_json_attempts + r
            total_attempts := m.total_attempts + r }) := by
  induction r with
  | zero => intro a m; simp [rewriteLoop]
  | succ r ih =>
    intro a m
    simp only [rewriteLoop, h, ih]
    congr 1
    simp
    constructor <;> omega

/-- If no attempt with remaining budget returns a schema instance, the
rewrite loop produces no core result. -/
theorem rewriteLoop_none (b : Backend) (r : Nat) :
    ∀ (a : Nat) (m : ReliabilityMetrics),
      (∀ k, k < r → ∀ c, b.rewriteResp (a + k) ≠ GenResult.ok c) →
      (rewriteLoop b a r m).1 = none := by
  induction r with
  | zero => intro a m _; simp [rewriteLoop]
  | succ r ih =>
    intro a m h
    have h0 := h 0 (Nat.succ_pos r)
    simp only [Nat.add_zero] at h0
    simp only [rewriteLoop]
    cases hr : b.rewriteResp a with
    | ok c => exact absurd hr (h0 c)
    | wrongType =>
        simp only []
        apply ih
        intro k hk c
        have := h (k + 1) (Nat.succ_lt_succ hk) c
        simpa [Nat.add_assoc, Nat.add_comm 1 k] using this
    | raised =>
        simp only []
        apply ih
        intro k hk c
        have := h (k + 1) (Nat.succ_lt_succ hk) c
        simpa [Nat.add_assoc, Nat.add_comm 1 k] using this

/-- The metrics state after stages 1 and 2 of `optimize`, before the rewrite
loop. -/
def stage2metrics (b : Backend) (p : Payload) : ReliabilityMetrics :=
  (analyze_alignment b p.resume_text p.job_description
    (extract_entities b p.resume_text { }).1
    (extract_entities b p.resume_text { }).2).2

/-- The entity/insight pair `optimize` threads into the final result. -/
def stage2data (b : Backend) (p : Payload) :
    ExtractedEntities × AlignmentInsights :=
  ((extract_entities b p.resume_text { }).1,
   (analyze_alignment b p.resume_text p.job_description
     (extract_entities b p.resume_text { }).1
     (extract_entities b p.resume_text { }).2).1)

/-- Models `optimize` unfolded on the branch where the rewrite loop exhausts its
retries: terminal zero-score result, original resume text preserved, run
marked invalid. -/
theorem optimize_core_none (b : Backend) (p : Payload)
    (h : (rewriteLoop b 0 MAX_RETRIES (stage2metrics b p)).1 = none) :
    optimize b p =
      { result :=
          { score := 0
            missing_keywords := []
            covered_keywords := []
            change_log := [("Error: Failed to parse LLM response after retries")]
            preview_markdown := p.resume_text
            detected_resume_lang := none
            detected_jd_lang := none
            extracted_entities := some (stage2data b p).1
            alignment_insights := some (stage2data b p).2 }
        metrics :=
          { (rewriteLoop b 0 MAX_RETRIES (stage2metrics b p)).2 with
            last_run_valid := false }
        core_result := none
        translation_calls := 0 } := by
  unfold optimize stage2metrics stage2data at *
  simp only [h, Option.isSome_none]

/-- Models `optimize` unfolded on the branch where the rewrite loop returns a core
result: conditional translation then assembly of the full result. -/
theorem optimize_core_some (b : Backend) (p : Payload)
    (core : OptimizationResultCore)
    (h : (rewriteLoop b 0 MAX_RETRIES (stage2metrics b p)).1 = some core) :
    optimize b p =
      { result :=
          { score := core.score
            missing_keywords := core.missing_keywords
            covered_keywords := core.covered_keywords
            change_log := core.change_log
            preview_markdown :=
              (if needs_translation core.preview_markdown
                  (resolved_target_lang p) then
                match translate_markdown b core.preview_markdown
                    (resolved_target_lang p) with
                | Except.ok t => (t, 1)
                | Except.error _ => (core.preview_markdown, 1)
              else (core.preview_markdown, 0) : String × Nat).1
            detected_resume_lang := none
            detected_jd_lang := none
            extracted_entities := some (stage2data b p).1
            alignment_insights := some (stage2data b p).2 }
        metrics :=
          { (rewriteLoop b 0 MAX_RETRIES (stage2metrics b p)).2 with
            last_run_valid := true }
        core_result := some core
        translation_calls :=
          (if needs_translation core.preview_markdown
              (resolved_target_lang p) then
            match translate_markdown b core.preview_markdown
                (resolved_target_lang p) with
            | Except.ok t => (t, 1)
            | Except.error _ => (core.preview_markdown, 1)
          else (core.preview_markdown, 0) : String × Nat).2 } := by
  unfold optimize stage2metrics stage2data resolved_target_lang at *
  simp only [h, Option.isSome_some]

/-! Section: Concrete fixtures used by witnesses and counterexamples -/

/-- A backend whose every generation call raises. -/
def bAllRaise : Backend where
  extractResp := fun _ => GenResult.raised
  alignResp := fun _ => GenResult.raised
  rewriteResp := fun _ => GenResult.raised
  translateResp := GenResult.raised

/-- A concrete stage-3 core result whose preview text is entirely Arabic. -/
def coreAr : OptimizationResultCore :=
  { score := 77
    missing_keywords := []
    covered_keywords := []
    change_log := [("improved summary")]
    preview_markdown := ("مرحبا") }

/-- A backend that fails extraction and alignment but succeeds on every
rewrite attempt with `coreAr`, and translates successfully. -/
def bAr : Backend where
  extractResp := fun _ => GenResult.raised
  alignResp := fun _ => GenResult.raised
  rewriteResp := fun _ => GenResult.ok coreAr
  translateResp := GenResult.ok ("hello resume")

/-- A payload requesting an output language outside the recognized set. -/
def pFr : Payload := { desired_output_lang := some ("fr") }

/-! Section: C6 -/

/-- C6: with a generation backend that raises a schema-validation error on
every call, `extract_entities` runs exactly `MAX_RETRIES = 3` attempts, adds
3 to `invalid_json_attempts`, returns the all-empty entity structure, and
propagates no error (it is a total function). -/
theorem extract_entities_all_raised (b : Backend) (resume_text : String)
    (m : ReliabilityMetrics)
    (h : ∀ n, b.extractResp n = GenResult.raised) :
    extract_entities b resume_text m =
      (emptyEntities,
        { m with invalid_json_attempts := m.invalid_json_attempts + 3 }) := by
  unfold extract_entities MAX_RETRIES
  exact extractLoop_raised b h 3 0 m

/-- Witness for C6 at a concrete always-raising backend and freshly reset
metrics. -/
theorem extract_entities_all_raised_witness :
    (extract_entities bAllRaise ("resume text") { }).1 = emptyEntities ∧
    (extract_entities bAllRaise ("resume text") { }).2.invalid_json_attempts = 3 := by
  have h := extract_entities_all_raised bAllRaise ("resume text") { }
    (fun _ => rfl)
  rw [h]
  exact ⟨rfl, rfl⟩

/-! Section: C2 -/

/-- C2 counterexample: with a backend that fails every attempt of every
stage, `total_attempts` is 3, not 9 — `extract_entities` and
`analyze_alignment` never touch `total_attempts`; only the rewrite loop
counts its attempts there (while `invalid_json_attempts` reaches 9). -/
theorem total_attempts_counterexample :
    (optimize bAllRaise { }).metrics.total_attempts = 3 ∧
    (optimize bAllRaise { }).metrics.invalid_json_attempts = 9 ∧
    ¬ (optimize bAllRaise { }).metrics.total_attempts = 9 := by
  refine ⟨rfl, rfl, by decide⟩

/-- C2 amended: `invalid_json_attempts` is incremented on every
schema-validation failure or backend exception in all three stages, but
`total_attempts` counts only rewrite-stage attempts; with a backend failing
every attempt of every stage, `total_attempts = 3` and
`invalid_json_attempts = 9`, and the run is marked invalid. -/
theorem pipeline_attempt_counters (b : Backend) (p : Payload)
    (hext : ∀ n, b.extractResp n = GenResult.raised)
    (hal : ∀ n, b.alignResp n = GenResult.raised)
    (hrw : ∀ n, b.rewriteResp n = GenResult.raised) :
    (optimize b p).metrics.total_attempts = 3 ∧
    (optimize b p).metrics.invalid_json_attempts = 9 ∧
    (optimize b p).metrics.last_run_valid = false := by
  have hs2 : stage2metrics b p =
      { invalid_json_attempts := 6, total_attempts := 0,
        latency_seconds := 0, last_run_valid := true } := by
    unfold stage2metrics analyze_alignment extract_entities MAX_RETRIES
    rw [extractLoop_raised b hext, alignLoop_raised b hal]
  have hrl := rewriteLoop_raised b hrw MAX_RETRIES 0 (stage2metrics b p)
  have hnone : (rewriteLoop b 0 MAX_RETRIES (stage2metrics b p)).1 = none := by
    rw [hrl]
  rw [optimize_core_none b p hnone]
  rw [hs2] at hrl
  rw [hs2, hrl]
  simp [MAX_RETRIES]

/-- Witness for C2 (amended) at the concrete always-failing backend. -/
theorem pipeline_attempt_counters_witness :
    (optimize bAllRaise { resume_text := ("cv") }).metrics.total_attempts = 3 ∧
    (optimize bAllRaise { resume_text := ("cv") }).metrics.invalid_json_attempts = 9 ∧
    (optimize bAllRaise { resume_text := ("cv") }).metrics.last_run_valid = false :=
  pipeline_attempt_counters bAllRaise { resume_text := ("cv") }
    (fun _ => rfl) (fun _ => rfl) (fun _ => rfl)

/-! Section: C4 -/

/-- C4: when every rewrite attempt fails, `optimize` still returns a
complete result — score 0, empty keyword lists, a single change-log entry
recording the failure, `preview_markdown` equal to the input resume text
verbatim — with `last_run_valid = false`; no error propagates (`optimize`
is total). -/
theorem rewrite_exhaustion_terminal (b : Backend) (p : Payload)
    (h : ∀ n, n < MAX_RETRIES → ∀ c, b.rewriteResp n ≠ GenResult.ok c) :
    (optimize b p).result.score = 0 ∧
    (optimize b p).result.missing_keywords = [] ∧
    (optimize b p).result.covered_keywords = [] ∧
    (optimize b p).result.change_log =
      [("Error: Failed to parse LLM response after retries")] ∧
    (optimize b p).result.preview_markdown = p.resume_text ∧
    (optimize b p).metrics.last_run_valid = false := by
  have hnone : (rewriteLoop b 0 MAX_RETRIES (stage2metrics b p)).1 = none := by
    apply rewriteLoop_none
    intro k hk c
    simpa using h k hk c
  rw [optimize_core_none b p hnone]
  exact ⟨rfl, rfl, rfl, rfl, rfl, rfl⟩

/-- Witness for C4 at the concrete always-failing backend and a concrete
resume text. -/
theorem rewrite_exhaustion_terminal_witness :
    (optimize bAllRaise { resume_text := ("My original resume") }).result.score = 0 ∧
    (optimize bAllRaise { resume_text := ("My original resume") }).result.missing_keywords = [] ∧
    (optimize bAllRaise { resume_text := ("My original resume") }).result.covered_keywords = [] ∧
    (optimize bAllRaise { resume_text := ("My original resume") }).result.change_log =
      [("Error: Failed to parse LLM response after retries")] ∧
    (optimize bAllRaise { resume_text := ("My original resume") }).result.preview_markdown =
      ("My original resume") ∧
    (optimize bAllRaise { resume_text := ("My original resume") }).metrics.last_run_valid = false :=
  rewrite_exhaustion_terminal bAllRaise { resume_text := ("My original resume") }
    (fun _ _ c h => by simp [bAllRaise] at h)

/-! Section: C3 -/

/-- C3 counterexample: a run whose rewrite stage succeeds with an
all-Arabic preview while the target output language is the non-Arabic code
`"fr"`: the Arabic-letter ratio exceeds 0.15, yet no translation call is
issued — `needs_translation` fires for non-Arabic targets only when the
target is exactly `"en"`. -/
theorem translation_gate_counterexample :
    (optimize bAr pFr).core_result = some coreAr ∧
    resolved_target_lang pFr = ("fr") ∧
    ¬ resolved_target_lang pFr = ("ar") ∧
    (15 / 100 : ℚ) < arabic_fraction coreAr.preview_markdown ∧
    (optimize bAr pFr).translation_calls = 0 := by
  have hfrac : arabic_fraction coreAr.preview_markdown =
      ((5 : ℕ) : ℚ) / ((5 : ℕ) : ℚ) := rfl
  refine ⟨rfl, rfl, by decide, ?_, rfl⟩
  rw [hfrac]
  norm_num

/-- C3 amended: in every run whose rewrite stage succeeds with core result
`core`, a translation call is issued (exactly once) iff `needs_translation`
holds of the produced preview and resolved target language — that is, iff
the preview is non-blank and either the target is `"ar"` with Arabic ratio
below 0.15 or the target is `"en"` with Arabic ratio above 0.15; when the
call is issued and the backend returns a string, its stripped output
replaces `preview_text` (and when no call is issued the preview is kept). -/
theorem translation_gate (b : Backend) (p : Payload)
    (core : OptimizationResultCore)
    (hcore : (optimize b p).core_result = some core) :
    ((optimize b p).translation_calls =
       if needs_translation core.preview_markdown (resolved_target_lang p)
       then 1 else 0) ∧
    (∀ s, needs_translation core.preview_markdown (resolved_target_lang p) = true →
       b.translateResp = GenResult.ok s →
       (optimize b p).result.preview_markdown = pyStrip s) ∧
    (needs_translation core.preview_markdown (resolved_target_lang p) = false →
       (optimize b p).result.preview_markdown = core.preview_markdown) ∧
    (∀ text tl, needs_translation text tl = true ↔
       (¬ pyStrip text = ("") ∧
         ((tl = ("ar") ∧ arabic_fraction text < 15 / 100) ∨
          (tl = ("en") ∧ 15 / 100 < arabic_fraction text)))) := by
  have hx : (rewriteLoop b 0 MAX_RETRIES (stage2metrics b p)).1 = some core := by
    cases hr : (rewriteLoop b 0 MAX_RETRIES (stage2metrics b p)).1 with
    | none =>
        rw [optimize_core_none b p hr] at hcore
        simp at hcore
    | some c =>
        rw [optimize_core_some b p c hr] at hcore
        simp at hcore
        rw [hcore]
  rw [optimize_core_some b p core hx]
  refine ⟨?_, ?_, ?_, ?_⟩
  · by_cases hn : needs_translation core.preview_markdown (resolved_target_lang p)
    · rw [if_pos hn]
      simp only [if_pos hn]
      cases ht : translate_markdown b core.preview_markdown (resolved_target_lang p) with
      | ok t => simp [ht]
      | error e => simp [ht]
    · simp [hn]
  · intro s hn hts
    have ht : translate_markdown b core.preview_markdown (resolved_target_lang p) =
        Except.ok (pyStrip s) := by
      unfold translate_markdown
      rw [hts]
    simp only [hn, if_true, ht]
  · intro hn
    simp [hn]
  · intro text tl
    unfold needs_translation
    by_cases h1 : pyStrip text = ("")
    · simp [h1]
    · rw [if_neg h1]
      by_cases h2 : tl = ("ar")
      · simp [h1, h2]
      · rw [if_neg h2]
        by_cases h3 : tl = ("en")
        · simp [h1, h2, h3]
        · simp [h1, h2, h3, if_neg h3]

/-- Witness for C3 (amended): concrete run whose rewrite succeeds with an
Arabic preview and English target, so the gate fires and the stripped
translation replaces the preview. -/
theorem translation_gate_witness :
    (optimize bAr { }).core_result = some coreAr ∧
    needs_translation coreAr.preview_markdown (resolved_target_lang ({ } : Payload)) = true ∧
    (optimize bAr { }).translation_calls = 1 ∧
    (optimize bAr { }).result.preview_markdown = pyStrip ("hello resume") := by
  have h := translation_gate bAr { } coreAr rfl
  have hfrac : arabic_fraction coreAr.preview_markdown =
      ((5 : ℕ) : ℚ) / ((5 : ℕ) : ℚ) := rfl
  have hneed : needs_translation coreAr.preview_markdown
      (resolved_target_lang ({ } : Payload)) = true := by
    have htl : resolved_target_lang ({ } : Payload) = ("en") := rfl
    rw [htl]
    unfold needs_translation
    rw [if_neg (by decide), if_neg (by decide), if_pos rfl]
    simp only [decide_eq_true_eq]
    rw [hfrac]
    norm_num
  refine ⟨rfl, hneed, ?_, ?_⟩
  · simp [h.1, hneed]
  · exact h.2.1 ("hello resume") hneed rfl

/-! Section: C10 -/

/-- Every language label the pipeline can produce is English or Arabic. -/
theorem language_name_en_or_ar (c : Option String) :
    language_name c = ("English") ∨ language_name c = ("Arabic") := by
  unfold language_name
  by_cases h1 : c.getD ("") = ("en")
  · simp [h1]
  · by_cases h2 : c.getD ("") = ("ar")
    · simp [h1, h2]
    · simp [h1, h2]

/-- C10: `language_name` maps every code outside {en, ar} (including an
absent code) to English; hence `build_language_instructions` always names
English or Arabic for the resume, job-description and output languages; and
`needs_translation` is false for every target outside {ar, en} as well as
for whitespace-only text. -/
theorem language_defaults :
    (∀ code : Option String, ¬ code = some ("en") → ¬ code = some ("ar") →
       language_name code = ("English")) ∧
    (∀ rl jl dl : Option String, ∃ r j t : String,
       (r = ("English") ∨ r = ("Arabic")) ∧
       (j = ("English") ∨ j = ("Arabic")) ∧
       (t = ("English") ∨ t = ("Arabic")) ∧
       build_language_instructions rl jl dl = instrText r j t) ∧
    (∀ tl text : String, ¬ tl = ("ar") → ¬ tl = ("en") →
       needs_translation text tl = false) ∧
    (∀ text tl : String, pyStrip text = ("") →
       needs_translation text tl = false) := by
  refine ⟨?_, ?_, ?_, ?_⟩
  · intro code h1 h2
    unfold language_name
    cases code with
    | none => simp
    | some s =>
        have hs1 : ¬ s = ("en") := fun h => h1 (by rw [h])
        have hs2 : ¬ s = ("ar") := fun h => h2 (by rw [h])
        simp [hs1, hs2]
  · intro rl jl dl
    refine ⟨language_name rl, language_name jl,
      language_name (some (pyOrS (pyOr dl rl) ("en"))), ?_, ?_, ?_, rfl⟩
    · exact language_name_en_or_ar rl
    · exact language_name_en_or_ar jl
    · exact language_name_en_or_ar _
  · intro tl text h1 h2
    unfold needs_translation
    by_cases h0 : pyStrip text = ("")
    · simp [h0]
    · simp [h0, h1, h2]
  · intro text tl h0
    unfold needs_translation
    simp [h0]

/-- Witness for C10 at the unrecognized code `"fr"` and whitespace-only
text. -/
theorem language_defaults_witness :
    language_name (some ("fr")) = ("English") ∧
    needs_translation ("Hello resume") ("fr") = false ∧
    needs_translation ("   ") ("ar") = false ∧
    (∃ r j t : String,
       (r = ("English") ∨ r = ("Arabic")) ∧
       (j = ("English") ∨ j = ("Arabic")) ∧
       (t = ("English") ∨ t = ("Arabic")) ∧
       build_language_instructions (some ("fr")) (some ("en")) none =
         instrText r j t) := by
  refine ⟨?_, ?_, ?_, ?_⟩
  · exact language_defaults.1 (some ("fr")) (by decide) (by decide)
  · exact language_defaults.2.2.1 ("fr") ("Hello resume") (by decide) (by decide)
  · exact language_defaults.2.2.2 ("   ") ("ar") (by decide)
  · exact language_defaults.2.1 (some ("fr")) (some ("en")) none

/-! Section: C8 -/

/-- Helper: the total equal-length model returns 0 whenever either vector
is empty or has zero norm (zero sum of squares). -/
theorem cosine_similarity_zero_guard (a b : List ℝ)
    (h : a = [] ∨ b = [] ∨ sumSq a = 0 ∨ sumSq b = 0) :
    cosine_similarity a b = 0 := by
  unfold cosine_similarity
  have hz : Real.sqrt (sumSq a) = 0 ∨ Real.sqrt (sumSq b) = 0 := by
    rcases h with h | h | h | h
    · left; rw [h]; simp [sumSq]
    · right; rw [h]; simp [sumSq]
    · left; rw [h]; exact Real.sqrt_zero
    · right; rw [h]; exact Real.sqrt_zero
  rw [if_pos hz]

/-- Evaluation of the zero guard on concrete zero vectors. -/
theorem cosine_similarity_zero_guard_witness :
    cosine_similarity [0, 0] [0, 0] = 0 :=
  cosine_similarity_zero_guard [0, 0] [0, 0]
    (Or.inr (Or.inr (Or.inl (by norm_num [sumSq]))))

/-- C8 counterexample: with the first vector empty and the second not, the
lengths differ, so `np.dot` raises before the zero-norm guard is reached —
the call does not return 0.0 for this empty-vector pair, and
`cosine_similarity` is not total on all pairs of float lists. -/
theorem cosine_similarity_empty_counterexample :
    cosine_similarity_exc [] [1] = Except.error () ∧
    ¬ cosine_similarity_exc [] [1] = Except.ok 0 := by
  refine ⟨rfl, fun h => ?_⟩
  rw [show cosine_similarity_exc [] [1] = Except.error () from rfl] at h
  exact Except.noConfusion h

/-- C8 amended: `cosine_similarity` is total exactly on pairs of
equal-length vectors, where it equals the guarded quotient model; for every
equal-length pair in which either vector is empty or has zero norm (in
particular the all-zero pairs) it returns exactly 0.0 with no division by a
zero norm; on 1-D inputs of different lengths `np.dot` raises `ValueError`
before the guard. -/
theorem cosine_similarity_shape_behavior :
    (∀ a b : List ℝ, a.length = b.length →
       cosine_similarity_exc a b = Except.ok (cosine_similarity a b)) ∧
    (∀ a b : List ℝ, a.length = b.length →
       (a = [] ∨ b = [] ∨ sumSq a = 0 ∨ sumSq b = 0) →
       cosine_similarity_exc a b = Except.ok 0) ∧
    (∀ a b : List ℝ, ¬ a.length = b.length →
       cosine_similarity_exc a b = Except.error ()) := by
  have hagree : ∀ a b : List ℝ, a.length = b.length →
      cosine_similarity_exc a b = Except.ok (cosine_similarity a b) := by
    intro a b h
    unfold cosine_similarity_exc np_dot cosine_similarity dotProduct
    rw [if_pos h]
    by_cases hg : Real.sqrt (sumSq a) = 0 ∨ Real.sqrt (sumSq b) = 0
    · simp [hg]
    · simp [hg]
  refine ⟨hagree, ?_, ?_⟩
  · intro a b h hz
    rw [hagree a b h, cosine_similarity_zero_guard a b hz]
  · intro a b h
    unfold cosine_similarity_exc np_dot
    rw [if_neg h]

/-- Witness for C8 (amended): equal-length zero vectors give 0.0, and the
empty-versus-nonempty pair raises. -/
theorem cosine_similarity_shape_behavior_witness :
    cosine_similarity_exc [0, 0] [0, 0] = Except.ok 0 ∧
    cosine_similarity_exc [] [1] = Except.error () := by
  refine ⟨?_, ?_⟩
  · exact cosine_similarity_shape_behavior.2.1 [0, 0] [0, 0] rfl
      (Or.inr (Or.inr (Or.inl (by norm_num [sumSq]))))
  · exact cosine_similarity_shape_behavior.2.2 [] [1] (by decide)

/-! Section: C7 -/

/-- C7: whenever the job-description embedding is obtained, the overall
score is `round(100 * (0.5*skills + 0.3*experience + 0.2*education), 1)`
where each component is the per-section cosine similarity against the
job-description embedding (0 for an empty or embedding-less section), each
computed independently of the other sections. -/
theorem overall_score_formula (emb : String → Option (List ℝ))
    (resume_skills resume_experience resume_education : List String)
    (job_description : String)
    (h : ¬ get_embedding emb job_description = []) :
    (calculate_match_score emb resume_skills resume_experience
        resume_education job_description).overall_score =
      pyRound1 (100 *
        ((0.50) * sectionSim emb (get_embedding emb job_description)
            (skillsTextOf resume_skills)
          + (0.30) * sectionSim emb (get_embedding emb job_description)
              (experienceTextOf resume_experience)
          + (0.20) * sectionSim emb (get_embedding emb job_description)
              (educationTextOf resume_education))) := by
  unfold calculate_match_score
  rw [if_neg (by simpa [List.isEmpty_iff] using h)]
  show pyRound1 _ = pyRound1 _
  congr 1
  ring

/-- Witness for C7: a provider with a constant embedding, a non-blank job
description and empty resume sections. -/
theorem overall_score_formula_witness :
    ¬ get_embedding (fun _ => some [1]) ("job text") = [] ∧
    (calculate_match_score (fun _ => some [1]) [] [] [] ("job text")).overall_score =
      pyRound1 (100 *
        ((0.50) * sectionSim (fun _ => some [1])
            (get_embedding (fun _ => some [1]) ("job text")) (skillsTextOf [])
          + (0.30) * sectionSim (fun _ => some [1])
              (get_embedding (fun _ => some [1]) ("job text")) (experienceTextOf [])
          + (0.20) * sectionSim (fun _ => some [1])
              (get_embedding (fun _ => some [1]) ("job text")) (educationTextOf []))) := by
  have hne : ¬ get_embedding (fun _ => some [1]) ("job text") = [] := by
    unfold get_embedding
    rw [if_neg (by decide)]
    simp
  exact ⟨hne, overall_score_formula (fun _ => some [1]) [] [] [] ("job text") hne⟩

/-! Section: C9 -/

/-- C9: `rank_candidates` returns exactly one entry per input candidate (a
permutation of the scored entries, same length), sorted by `overall_score`
descending, and the sort is stable: any two entries of the scored input
with equal overall score keep their original relative order. -/
theorem rank_candidates_sorted_stable (emb : String → Option (List ℝ))
    (candidates : List Candidate) (job_description : String) :
    (rank_candidates emb candidates job_description).Perm
      (candidates.map (scoreCandidate emb job_description)) ∧
    (rank_candidates emb candidates job_description).length =
      candidates.length ∧
    (rank_candidates emb candidates job_description).Pairwise
      (fun x y => y.overall_score ≤ x.overall_score) ∧
    (∀ x y, List.Sublist [x, y]
        (candidates.map (scoreCandidate emb job_description)) →
      x.overall_score = y.overall_score →
      List.Sublist [x, y] (rank_candidates emb candidates job_description)) := by
  have trans : ∀ (a b c : RankedCandidate),
      decide (b.overall_score ≤ a.overall_score) = true →
      decide (c.overall_score ≤ b.overall_score) = true →
      decide (c.overall_score ≤ a.overall_score) = true := by
    intro a b c hab hbc
    simp only [decide_eq_true_eq] at *
    exact le_trans hbc hab
  have total : ∀ (a b : RankedCandidate),
      (decide (b.overall_score ≤ a.overall_score)
        || decide (a.overall_score ≤ b.overall_score)) = true := by
    intro a b
    simpa using le_total b.overall_score a.overall_score
  unfold rank_candidates
  refine ⟨List.mergeSort_perm _ _, ?_, ?_, ?_⟩
  · rw [List.length_mergeSort, List.length_map]
  · have hs := List.sorted_mergeSort trans total
      (candidates.map (scoreCandidate emb job_description))
    exact hs.imp (fun hxy => by simpa using hxy)
  · intro x y hsub heq
    exact List.pair_sublist_mergeSort trans total (by simp [heq]) hsub

/-- Witness for C9: a singleton batch against a constant-embedding
provider. -/
theorem rank_candidates_sorted_stable_witness :
    (rank_candidates (fun _ => some [1]) [{ }] ("job text")).length = 1 ∧
    (rank_candidates (fun _ => some [1]) [{ }] ("job text")).Perm
      (([{ }] : List Candidate).map (scoreCandidate (fun _ => some [1]) ("job text"))) := by
  have h := rank_candidates_sorted_stable (fun _ => some [1]) [{ }] ("job text")
  exact ⟨h.2.1, h.1⟩

/-! Section: Helper lemmas on the queue poll -/

/-- The row picked by the poll query is a claimable row of the list, at the
returned index. -/
theorem pickOldest_mem (ts : List TaskRow) :
    ∀ i t, pickOldest ts = some (i, t) →
      ts[i]? = some t ∧ isClaimable t = true := by
  induction ts with
  | nil => intro i t h; simp [pickOldest] at h
  | cons r rest ih =>
    intro i t h
    by_cases hc : isClaimable r = true
    · rw [pickOldest, if_pos hc] at h
      cases hp : pickOldest rest with
      | none =>
          rw [hp] at h
          simp only [Option.some.injEq, Prod.mk.injEq] at h
          obtain ⟨hi, ht⟩ := h
          subst hi; subst ht
          simp [hc]
      | some ju =>
          obtain ⟨j, u⟩ := ju
          rw [hp] at h
          simp only [] at h
          by_cases hlt : u.created_at < r.created_at
          · rw [if_pos hlt] at h
            simp only [Option.some.injEq, Prod.mk.injEq] at h
            obtain ⟨hi, ht⟩ := h
            subst hi; subst ht
            simpa [List.getElem?_cons_succ] using ih j u hp
          · rw [if_neg hlt] at h
            simp only [Option.some.injEq, Prod.mk.injEq] at h
            obtain ⟨hi, ht⟩ := h
            subst hi; subst ht
            simp [hc]
    · rw [pickOldest, if_neg hc] at h
      cases hp : pickOldest rest with
      | none => rw [hp] at h; simp at h
      | some ju =>
          obtain ⟨j, u⟩ := ju
          rw [hp] at h
          simp only [Option.map_some', Option.some.injEq, Prod.mk.injEq] at h
          obtain ⟨hi, ht⟩ := h
          subst hi; subst ht
          simpa [List.getElem?_cons_succ] using ih j u hp

/-- When the poll query finds nothing, no row of the list is claimable. -/
theorem pickOldest_none (ts : List TaskRow) :
    pickOldest ts = none →
      ∀ (j : Nat) (u : TaskRow), ts[j]? = some u → isClaimable u = false := by
  induction ts with
  | nil => intro _ j u hj; simp at hj
  | cons r rest ih =>
    intro h j u hj
    by_cases hc : isClaimable r = true
    · rw [pickOldest, if_pos hc] at h
      cases hp : pickOldest rest with
      | none => rw [hp] at h; simp at h
      | some ju =>
          obtain ⟨j0, u0⟩ := ju
          rw [hp] at h
          simp only [] at h
          split at h <;> simp at h
    · rw [pickOldest, if_neg hc] at h
      cases hp : pickOldest rest with
      | some ju => obtain ⟨j0, u0⟩ := ju; rw [hp] at h; simp at h
      | none =>
          cases j with
          | zero =>
              simp only [List.getElem?_cons_zero, Option.some.injEq] at hj
              subst hj
              simpa using hc
          | succ j =>
              exact ih hp j u (by simpa using hj)

/-- The row picked by the poll query has minimal `created_at` among the
claimable rows. -/
theorem pickOldest_min (ts : List TaskRow) :
    ∀ i t, pickOldest ts = some (i, t) →
      ∀ (j : Nat) (u : TaskRow), ts[j]? = some u → isClaimable u = true →
        t.created_at ≤ u.created_at := by
  induction ts with
  | nil => intro i t h; simp [pickOldest] at h
  | cons r rest ih =>
    intro i t h j u hj hu
    by_cases hc : isClaimable r = true
    · rw [pickOldest, if_pos hc] at h
      cases hp : pickOldest rest with
      | none =>
          rw [hp] at h
          simp only [Option.some.injEq, Prod.mk.injEq] at h
          obtain ⟨hi, ht⟩ := h
          subst hi; subst ht
          cases j with
          | zero =>
              simp only [List.getElem?_cons_zero, Option.some.injEq] at hj
              subst hj
              exact Nat.le_refl _
          | succ j =>
              have := pickOldest_none rest hp j u (by simpa using hj)
              rw [this] at hu
              exact absurd hu (by simp)
      | some ju =>
          obtain ⟨j0, u0⟩ := ju
          rw [hp] at h
          simp only [] at h
          by_cases hlt : u0.created_at < r.created_at
          · rw [if_pos hlt] at h
            simp only [Option.some.injEq, Prod.mk.injEq] at h
            obtain ⟨hi, ht⟩ := h
            subst hi; subst ht
            cases j with
            | zero =>
                simp only [List.getElem?_cons_zero, Option.some.injEq] at hj
                subst hj
                exact Nat.le_of_lt hlt
            | succ j =>
                exact ih j0 u0 hp j u (by simpa using hj) hu
          · rw [if_neg hlt] at h
            simp only [Option.some.injEq, Prod.mk.injEq] at h
            obtain ⟨hi, ht⟩ := h
            subst hi; subst ht
            cases j with
            | zero =>
                simp only [List.getElem?_cons_zero, Option.some.injEq] at hj
                subst hj
                exact Nat.le_refl _
            | succ j =>
                have h1 := ih j0 u0 hp j u (by simpa using hj) hu
                exact Nat.le_trans (Nat.le_of_not_lt hlt) h1
    · rw [pickOldest, if_neg hc] at h
      cases hp : pickOldest rest with
      | none => rw [hp] at h; simp at h
      | some ju =>
          obtain ⟨j0, u0⟩ := ju
          rw [hp] at h
          simp only [Option.map_some', Option.some.injEq, Prod.mk.injEq] at h
          obtain ⟨hi, ht⟩ := h
          subst hi; subst ht
          cases j with
          | zero =>
              simp only [List.getElem?_cons_zero, Option.some.injEq] at hj
              subst hj
              rw [hu] at hc
              exact absurd rfl hc
          | succ j =>
              exact ih j0 u0 hp j u (by simpa using hj) hu

/-- Characterization of a successful claim: the picked row, flipped to
`processing` with `attempts` incremented, written back at its index. -/
theorem claim_next_some (db : DB) (i : Nat) (t : TaskRow) (db1 : DB)
    (h : claim_next db = (some (i, t), db1)) :
    ∃ t0, pickOldest db.tasks = some (i, t0) ∧
      t = { t0 with status := TaskStatus.processing,
                    attempts := t0.attempts + 1 } ∧
      db1 = { db with tasks := db.tasks.set i t } := by
  unfold claim_next at h
  cases hp : pickOldest db.tasks with
  | none => rw [hp] at h; simp at h
  | some it =>
      obtain ⟨i0, t0⟩ := it
      rw [hp] at h
      simp only [Prod.mk.injEq, Option.some.injEq] at h
      obtain ⟨⟨hi, ht⟩, hdb⟩ := h
      subst hi
      exact ⟨t0, rfl, ht.symm, by rw [← hdb, ht]⟩

/-! Section: C5 -/

/-- The shape of a freshly claimed row: `processing`, `attempts` bumped. -/
def claimedRow (t : TaskRow) : TaskRow :=
  { t with status := TaskStatus.processing, attempts := t.attempts + 1 }

/-- C5: the claim step returns the oldest queued `optimize` row (minimal
`created_at` among queued optimize rows), flipped to `processing` with
`attempts` incremented by exactly 1 and written back; a claim issued before
the task leaves `processing` cannot return the same row again; and three
rows enqueued at strictly increasing timestamps are claimed in that order. -/
theorem claim_next_semantics :
    (∀ (db : DB) (i : Nat) (t : TaskRow) (db1 : DB),
       claim_next db = (some (i, t), db1) →
       ∃ t0, db.tasks[i]? = some t0 ∧
         t0.status = TaskStatus.queued ∧
         t0.task_type = TaskType.optimize ∧
         t = { t0 with status := TaskStatus.processing,
                       attempts := t0.attempts + 1 } ∧
         t.attempts = t0.attempts + 1 ∧
         db1.tasks = db.tasks.set i t ∧
         (∀ (j : Nat) (u : TaskRow), db.tasks[j]? = some u →
            u.status = TaskStatus.queued → u.task_type = TaskType.optimize →
            t0.created_at ≤ u.created_at) ∧
         (∀ (k : Nat) (u : TaskRow) (db2 : DB),
            claim_next db1 = (some (k, u), db2) → ¬ k = i)) ∧
    (∀ (jobs : List (String × JobStatus)) (opts : List OptRecord)
       (t1 t2 t3 : TaskRow),
       isClaimable t1 = true → isClaimable t2 = true → isClaimable t3 = true →
       t1.created_at < t2.created_at → t2.created_at < t3.created_at →
       (claim_next ⟨[t1, t2, t3], jobs, opts⟩).1 =
         some (0, { t1 with status := TaskStatus.processing,
                            attempts := t1.attempts + 1 }) ∧
       (claim_next (claim_next ⟨[t1, t2, t3], jobs, opts⟩).2).1 =
         some (1, { t2 with status := TaskStatus.processing,
                            attempts := t2.attempts + 1 }) ∧
       (claim_next (claim_next (claim_next ⟨[t1, t2, t3], jobs, opts⟩).2).2).1 =
         some (2, { t3 with status := TaskStatus.processing,
                            attempts := t3.attempts + 1 })) := by
  constructor
  · intro db i t db1 h
    obtain ⟨t0, hp, ht, hdb⟩ := claim_next_some db i t db1 h
    have hm := pickOldest_mem db.tasks i t0 hp
    have hcl : t0.status = TaskStatus.queued ∧ t0.task_type = TaskType.optimize := by
      have h2 := hm.2
      simpa [isClaimable] using h2
    refine ⟨t0, hm.1, hcl.1, hcl.2, ht, by rw [ht], by rw [hdb], ?_, ?_⟩
    · intro j u hj hs hty
      exact pickOldest_min db.tasks i t0 hp j u hj (by simp [isClaimable, hs, hty])
    · intro k u db2 h2 hk
      obtain ⟨u0, hp2, hu, _⟩ := claim_next_some db1 k u db2 h2
      have hm2 := pickOldest_mem db1.tasks k u0 hp2
      have hlt : i < db.tasks.length := by
        rcases List.getElem?_eq_some_iff.1 hm.1 with ⟨hl, _⟩
        exact hl
      have hi : db1.tasks[i]? = some t := by
        rw [hdb]
        simp only []
        exact List.getElem?_set_self hlt
      rw [hk] at hm2
      rw [hi] at hm2
      have hu0 : u0 = t := by
        have := hm2.1
        simpa using this.symm
      have := hm2.2
      rw [hu0, ht] at this
      simp [isClaimable] at this
  · intro jobs opts t1 t2 t3 hc1 hc2 hc3 h12 h23
    have n21 : ¬ t2.created_at < t1.created_at := Nat.lt_asymm h12
    have n32 : ¬ t3.created_at < t2.created_at := Nat.lt_asymm h23
    have e3 : pickOldest [t3] = some (0, t3) := by
      simp [pickOldest, hc3]
    have e2 : pickOldest [t2, t3] = some (0, t2) := by
      simp [pickOldest, hc2, hc3, n32]
    have e1 : pickOldest [t1, t2, t3] = some (0, t1) := by
      simp [pickOldest, hc1, hc2, hc3, n32, n21]
    have hb1 : isClaimable (claimedRow t1) = false := by
      simp [isClaimable, claimedRow]
    have hb2 : isClaimable (claimedRow t2) = false := by
      simp [isClaimable, claimedRow]
    have hd1 : (claim_next ⟨[t1, t2, t3], jobs, opts⟩).2 =
        ⟨[claimedRow t1, t2, t3], jobs, opts⟩ := by
      simp only [claim_next, e1, List.set_cons_zero]
      rfl
    have ep : pickOldest [claimedRow t1, t2, t3] = some (1, t2) := by
      simp [pickOldest, hb1, hc2, hc3, n32]
    have hd2 : (claim_next ⟨[claimedRow t1, t2, t3], jobs, opts⟩).2 =
        ⟨[claimedRow t1, claimedRow t2, t3], jobs, opts⟩ := by
      simp only [claim_next, ep, List.set_cons_succ, List.set_cons_zero]
      rfl
    have ep2 : pickOldest [claimedRow t1, claimedRow t2, t3] =
        some (2, t3) := by
      simp [pickOldest, hb1, hb2, hc3]
    refine ⟨?_, ?_, ?_⟩
    · simp only [claim_next, e1]
    · rw [hd1]
      simp only [claim_next, ep]
    · rw [hd1, hd2]
      simp only [claim_next, ep2]

/-- A concrete queued `optimize` row for witnesses (id and timestamp given). -/
def mkQueuedRow (n c : Nat) : TaskRow :=
  { id := n, task_type := TaskType.optimize, payload := { },
    status := TaskStatus.queued, attempts := 0, last_error := none,
    created_at := c }

/-- A one-row queue database. -/
def dbW1 : DB := { tasks := [mkQueuedRow 1 1], jobs := [], optimizations := [] }

/-- Witness for C5: both parts applied at concrete databases — a single
queued row, and three rows with strictly increasing timestamps. -/
theorem claim_next_semantics_witness :
    (∃ t0, dbW1.tasks[0]? = some t0 ∧
       t0.status = TaskStatus.queued ∧
       t0.task_type = TaskType.optimize ∧
       claimedRow (mkQueuedRow 1 1) =
         { t0 with status := TaskStatus.processing,
                   attempts := t0.attempts + 1 } ∧
       (claimedRow (mkQueuedRow 1 1)).attempts = t0.attempts + 1 ∧
       (⟨[claimedRow (mkQueuedRow 1 1)], [], []⟩ : DB).tasks =
         dbW1.tasks.set 0 (claimedRow (mkQueuedRow 1 1)) ∧
       (∀ (j : Nat) (u : TaskRow), dbW1.tasks[j]? = some u →
          u.status = TaskStatus.queued → u.task_type = TaskType.optimize →
          t0.created_at ≤ u.created_at) ∧
       (∀ (k : Nat) (u : TaskRow) (db2 : DB),
          claim_next ⟨[claimedRow (mkQueuedRow 1 1)], [], []⟩ =
            (some (k, u), db2) → ¬ k = 0)) ∧
    ((claim_next ⟨[mkQueuedRow 1 1, mkQueuedRow 2 2, mkQueuedRow 3 3], [], []⟩).1 =
       some (0, claimedRow (mkQueuedRow 1 1)) ∧
     (claim_next (claim_next
        ⟨[mkQueuedRow 1 1, mkQueuedRow 2 2, mkQueuedRow 3 3], [], []⟩).2).1 =
       some (1, claimedRow (mkQueuedRow 2 2)) ∧
     (claim_next (claim_next (claim_next
        ⟨[mkQueuedRow 1 1, mkQueuedRow 2 2, mkQueuedRow 3 3], [], []⟩).2).2).1 =
       some (2, claimedRow (mkQueuedRow 3 3))) := by
  constructor
  · exact claim_next_semantics.1 dbW1 0 (claimedRow (mkQueuedRow 1 1))
      ⟨[claimedRow (mkQueuedRow 1 1)], [], []⟩ rfl
  · exact claim_next_semantics.2 [] [] (mkQueuedRow 1 1) (mkQueuedRow 2 2)
      (mkQueuedRow 3 3) rfl rfl rfl (by decide) (by decide)

/-! Section: C1 -/

/-- A queued `optimize` row whose payload carries a job id and user id. -/
def tQueued : TaskRow :=
  { id := 1, task_type := TaskType.optimize,
    payload := { job_id := some ("job-1"), user_id := some ("user-1") },
    status := TaskStatus.queued, attempts := 0, last_error := none,
    created_at := 10 }

/-- A database holding one queued task and its queued job. -/
def dbOne : DB :=
  { tasks := [tQueued], jobs := [(("job-1"), JobStatus.queued)],
    optimizations := [] }

/-- C1 counterexample: a cycle whose pipeline execution succeeds (the job is
marked `complete`) leaves the claimed queue row in `processing` — the worker
never sets a task row to `complete`, so the row does not reach a terminal
state. -/
theorem worker_row_terminal_counterexample :
    (worker_cycle bAr dbOne).jobs = [(("job-1"), JobStatus.complete)] ∧
    (worker_cycle bAr dbOne).tasks.map TaskRow.status = [TaskStatus.processing] ∧
    ¬ TaskStatus.processing = TaskStatus.complete ∧
    ¬ TaskStatus.processing = TaskStatus.failed := by
  refine ⟨rfl, rfl, by decide, by decide⟩

/-- C1 amended: the worker's processing of a claimed row ends with the row
still in `processing` on success (only the job status is set to `complete`;
no task row is ever marked `complete`), and in `failed` (with the error
recorded) when task execution raises; the task status thus only ever moves
`queued → processing` and, on error, `→ failed`. -/
theorem worker_row_final_status (b : Backend) (db : DB) (i : Nat)
    (t : TaskRow) (db1 : DB)
    (hclaim : claim_next db = (some (i, t), db1)) :
    t.status = TaskStatus.processing ∧
    (∀ jid uid, t.payload.job_id = some jid → t.payload.user_id = some uid →
       (worker_cycle b db).tasks = db1.tasks ∧
       (worker_cycle b db).tasks[i]? = some t ∧
       (worker_cycle b db).jobs =
         update_job_status db1.jobs jid JobStatus.complete) ∧
    ((t.payload.job_id = none ∨ t.payload.user_id = none) →
       (worker_cycle b db).tasks[i]? =
         some { t with status := TaskStatus.failed,
                       last_error := some ("KeyError") }) := by
  obtain ⟨t0, hp, ht, hdb⟩ := claim_next_some db i t db1 hclaim
  have hm := pickOldest_mem db.tasks i t0 hp
  have hlen : i < db.tasks.length := by
    rcases List.getElem?_eq_some_iff.1 hm.1 with ⟨hl, _⟩
    exact hl
  have hdb1t : db1.tasks = db.tasks.set i t := by rw [hdb]
  have hdb1i : db1.tasks[i]? = some t := by
    rw [hdb1t]
    exact List.getElem?_set_self hlen
  have hcyc : worker_cycle b db = process_task b db1 t.id t.payload := by
    unfold worker_cycle
    rw [hclaim]
  refine ⟨by rw [ht], ?_, ?_⟩
  · intro jid uid hj hu
    have htasks : (process_task b db1 t.id t.payload).tasks = db1.tasks := by
      unfold process_task
      rw [hj, hu]
    have hjobs : (process_task b db1 t.id t.payload).jobs =
        update_job_status db1.jobs jid JobStatus.complete := by
      unfold process_task
      rw [hj, hu]
    rw [hcyc]
    exact ⟨htasks, by rw [htasks]; exact hdb1i, hjobs⟩
  · intro hor
    have htasks : (process_task b db1 t.id t.payload).tasks =
        db1.tasks.map (fun r =>
          if r.id = t.id then
            { r with status := TaskStatus.failed,
                     last_error := some ("KeyError") }
          else r) := by
      unfold process_task
      rcases hor with h | h
      · rw [h]
      · cases hj2 : t.payload.job_id with
        | none => rfl
        | some jid => rw [h]
    rw [hcyc, htasks]
    simp [List.getElem?_map, hdb1i]

/-- The shape of a task row marked failed by `process_task`. -/
def failedRow (t : TaskRow) : TaskRow :=
  { t with status := TaskStatus.failed, last_error := some ("KeyError") }

/-- Witness for C1 (amended): both branches at concrete one-row databases —
a payload with job and user ids (success path) and an empty payload
(exception path). -/
theorem worker_row_final_status_witness :
    (claimedRow tQueued).status = TaskStatus.processing ∧
    (worker_cycle bAr dbOne).tasks =
      ({ dbOne with tasks := dbOne.tasks.set 0 (claimedRow tQueued) } : DB).tasks ∧
    (worker_cycle bAr dbW1).tasks[0]? =
      some (failedRow (claimedRow (mkQueuedRow 1 1))) := by
  have hs := worker_row_final_status bAr dbOne 0 (claimedRow tQueued)
    { dbOne with tasks := dbOne.tasks.set 0 (claimedRow tQueued) } rfl
  have hf := worker_row_final_status bAr dbW1 0 (claimedRow (mkQueuedRow 1 1))
    { dbW1 with tasks := dbW1.tasks.set 0 (claimedRow (mkQueuedRow 1 1)) } rfl
  refine ⟨hs.1, ?_, ?_⟩
  · exact (hs.2.1 ("job-1") ("user-1") rfl rfl).1
  · exact hf.2.2 (Or.inl rfl)

end ResumeOpt
